import Mathlib

/-
Verification of the one_click_kag_server provisioning tool.

The definitions below are a shallow embedding of the two source files
src/one_click_kag_server/main.py and src/one_click_kag_server/sftp.py.
Remote effects (provider API calls, ssh commands, file transfers) are
modelled by an explicit environment record and an event trace; Python
exceptions are modelled by an optional error carried alongside the
mutated state, matching the mutate-in-place-then-raise behaviour of the
source.
-/

namespace OneClickKag

/-! ## RetryWaiter: the tenacity retry decorator on wait_for_droplet_to_be_active

The source decorates wait_for_droplet_to_be_active with
retry(wait=wait_fixed(5), stop=stop_after_delay(120)).  tenacity runs
one attempt, then checks the stop condition (seconds since start >=
deadline), and if it does not hold sleeps the fixed interval and tries
again.  We model idealized time: each attempt costs zero time and each
sleep advances the clock by the interval, so after attempt n the
elapsed time is interval * (n - 1).  The fuel argument of deadline + 1
never binds for a positive interval since the elapsed clock grows by at
least the interval on every recursion; the exactness theorem below pins
the behaviour on an always-failing predicate without reference to the
fuel. -/

inductive RetryResult where
  | success (attempts : Nat)
  | timeout (attempts : Nat)
deriving DecidableEq

def retryGo (pred : Nat → Bool) (interval deadline : Nat) : Nat → Nat → Nat → RetryResult
  | 0, attempt, _ => .timeout attempt
  | fuel+1, attempt, elapsed =>
    if pred attempt then .success attempt
    else if deadline ≤ elapsed then .timeout attempt
    else retryGo pred interval deadline fuel (attempt+1) (elapsed + interval)

def waitUntil (pred : Nat → Bool) (interval deadline : Nat) : RetryResult :=
  retryGo pred interval deadline (deadline + 1) 1 0

/-! ## sftp.py: MySFTPClient.mkdir

paramiko surfaces every SFTP-level failure of the underlying mkdir as
an IOError; other failures (for instance transport errors) are raised
as non-IOError exceptions.  MySFTPClient.mkdir wraps the base call in
try/except IOError, swallowing the IOError when ignore_existing is
set and re-raising it otherwise; non-IOError exceptions are never
caught. -/

inductive IOReason where
  | alreadyExists
  | permissionDenied
  | noSuchFile
deriving DecidableEq

inductive SFTPErr where
  | ioError (reason : IOReason)
  | sshException
deriving DecidableEq

def MySFTPClient.mkdir (base : Except SFTPErr Unit) (ignore_existing : Bool) :
    Except SFTPErr Unit :=
  match base with
  | .ok _ => .ok ()
  | .error (.ioError r) => if ignore_existing then .ok () else .error (.ioError r)
  | .error .sshException => .error .sshException

/-- The underlying paramiko mkdir against a remote filesystem modelled as the
list of existing directory paths: it fails with an IOError if the path
already exists and creates it otherwise. -/
def sftpBaseMkdir (fs : List String) (p : String) : Except SFTPErr Unit × List String :=
  if fs.contains p then (.error (.ioError .alreadyExists), fs) else (.ok (), p :: fs)

/-- MySFTPClient.mkdir run against the remote-filesystem model. -/
def MySFTPClient.mkdirOn (fs : List String) (p : String) (ignore_existing : Bool) :
    Except SFTPErr Unit × List String :=
  let r := sftpBaseMkdir fs p
  (MySFTPClient.mkdir r.1 ignore_existing, r.2)

/-! ## main.py: check_config

check_config first tests the digitalocean key for Python falsiness
(absent or empty string), then iterates config kag mods; when the mods
key is absent the get chain yields None and iterating None raises a
TypeError before the loop body runs.  Each listed mod must exist as a
directory under Mods/, modelled by the list of locally present mod
directories. -/

inductive Err where
  | runtimeError (msg : String)
  | valueError (msg : String)
  | typeError (msg : String)
  | transferError (msg : String)
  | timeoutError
deriving DecidableEq

structure Config where
  secrets_digitalocean_key : Option String
  kag_mods : Option (List String)
  sv_tcpr : Option Nat
  sv_rconpassword : Option String
deriving DecidableEq

/-- Python falsiness of an optional string: None and the empty string. -/
def falsyStr : Option String → Bool
  | none => true
  | some s => s == ""

def check_config (fsModDirs : List String) (cfg : Config) : Except Err Unit :=
  if falsyStr cfg.secrets_digitalocean_key then
    .error (.valueError "Config is missing secrets.digitalocean_key")
  else
    match cfg.kag_mods with
    | none => .error (.typeError "NoneType object is not iterable")
    | some mods =>
      match mods.find? (fun m => !(fsModDirs.contains m)) with
      | some m => .error (.valueError ("Mod not found in the Mods directory: " ++ m))
      | none => .ok ()

/-! ## sftp.py: put_dir and get_recursive over directory trees

A directory is a finite sequence of named entries, each a file (with
its content) or a subdirectory.  put_dir iterates the local listing:
files are uploaded with put (overwriting an existing remote file,
failing if the remote path is a directory); for a subdirectory it runs
mkdir with ignore_existing (so an existing remote directory is kept,
while a remote file of the same name makes the subsequent transfers
fail) and recurses.  get_recursive is symmetric, iterating the remote
listing and downloading into the local destination, creating local
directories as needed. -/

inductive Tree where
  | nil : Tree
  | fileNode (name content : String) (rest : Tree) : Tree
  | dirNode (name : String) (children : Tree) (rest : Tree) : Tree
deriving DecidableEq

inductive EntView where
  | fileV (content : String)
  | dirV (children : Tree)
deriving DecidableEq

def Tree.lookup : Tree → String → Option EntView
  | .nil, _ => none
  | .fileNode m c r, n => if m = n then some (.fileV c) else r.lookup n
  | .dirNode m ch r, n => if m = n then some (.dirV ch) else r.lookup n

/-- Write an entry at a name: replace an existing entry of that name in
place, otherwise append it at the end of the listing. -/
def Tree.insertT : Tree → String → EntView → Tree
  | .nil, n, .fileV c => .fileNode n c .nil
  | .nil, n, .dirV ch => .dirNode n ch .nil
  | .fileNode m c r, n, v =>
    if m = n then
      match v with
      | .fileV c2 => .fileNode m c2 r
      | .dirV ch2 => .dirNode m ch2 r
    else .fileNode m c (r.insertT n v)
  | .dirNode m ch r, n, v =>
    if m = n then
      match v with
      | .fileV c2 => .fileNode m c2 r
      | .dirV ch2 => .dirNode m ch2 r
    else .dirNode m ch (r.insertT n v)

inductive SyncErr where
  | putFailed
  | getFailed
deriving DecidableEq

/-- MySFTPClient.put_dir: the first tree is the local source listing, the
second the current contents of the remote target directory; the result is
the remote target contents after the upload. -/
def put_dir : Tree → Tree → Except SyncErr Tree
  | .nil, target => .ok target
  | .fileNode n c rest, target =>
    match target.lookup n with
    | some (.dirV _) => .error .putFailed
    | _ => put_dir rest (target.insertT n (.fileV c))
  | .dirNode n ch rest, target =>
    match target.lookup n with
    | some (.fileV _) => .error .putFailed
    | some (.dirV t2) =>
      match put_dir ch t2 with
      | .error e => .error e
      | .ok t3 => put_dir rest (target.insertT n (.dirV t3))
    | none =>
      match put_dir ch .nil with
      | .error e => .error e
      | .ok t3 => put_dir rest (target.insertT n (.dirV t3))

/-- MySFTPClient.get_recursive: the first tree is the remote listing, the
second the current contents of the local destination directory; the result
is the local destination contents after the download. -/
def get_recursive : Tree → Tree → Except SyncErr Tree
  | .nil, dest => .ok dest
  | .fileNode n c rest, dest =>
    match dest.lookup n with
    | some (.dirV _) => .error .getFailed
    | _ => get_recursive rest (dest.insertT n (.fileV c))
  | .dirNode n ch rest, dest =>
    match dest.lookup n with
    | some (.fileV _) => .error .getFailed
    | some (.dirV d2) =>
      match get_recursive ch d2 with
      | .error e => .error e
      | .ok d3 => get_recursive rest (dest.insertT n (.dirV d3))
    | none =>
      match get_recursive ch .nil with
      | .error e => .error e
      | .ok d3 => get_recursive rest (dest.insertT n (.dirV d3))

def Tree.names : Tree → List String
  | .nil => []
  | .fileNode n _ r => n :: r.names
  | .dirNode n _ r => n :: r.names

/-- Every directory listing in the tree has pairwise distinct entry names,
as is the case for any tree produced by a real filesystem listing. -/
def Tree.nodupB : Tree → Bool
  | .nil => true
  | .fileNode n _ r => !(decide (n ∈ r.names)) && r.nodupB
  | .dirNode n ch r => !(decide (n ∈ r.names)) && ch.nodupB && r.nodupB

def Tree.append : Tree → Tree → Tree
  | .nil, t => t
  | .fileNode n c r, t => .fileNode n c (r.append t)
  | .dirNode n ch r, t => .dirNode n ch (r.append t)

/-! ## main.py: the provisioning workflow

State mirrors the pickled State class.  Remote and provider effects are
recorded in an event trace; their outcomes (command exit statuses, the
per-attempt result of the activation poll, and so on) are supplied by
an environment record, since the workflow is deterministic given those
outcomes.  A step returns the possibly-raised error together with the
state as mutated so far and the events it performed, matching Python
exception propagation over in-place mutation. -/

structure Droplet where
  status : String
  ip_address : String
deriving DecidableEq

structure State where
  ssh_key_name : Option String
  ssh_key_uploaded : Bool
  droplet : Option Droplet
  done_droplet_setup : Bool
  done_kag_setup : Bool
deriving DecidableEq

/-- State.__init__: the fresh record with all flags false and no handles. -/
def State.init : State :=
  { ssh_key_name := none
    ssh_key_uploaded := false
    droplet := none
    done_droplet_setup := false
    done_kag_setup := false }

inductive Ev where
  | createKeypair
  | uploadKey
  | createDroplet
  | waitActive
  | dropletLoad
  | sshConnect
  | sftpPut
  | runSetupScript
  | composeDown
  | composeUp
  | execLogs
  | getRecursiveCache
  | destroyDroplet
  | sshClose
  | saveState
deriving DecidableEq

structure Env where
  freshKeyName : String
  createdDroplet : Droplet
  loadedStatus : String
  activeAt : Nat → Bool
  dropletUploadsOk : Bool
  setupScriptStatus : Nat
  kagUploadsOk : Bool
  composeUpStatus : Nat
  cacheDownloadOk : Bool
  sshExecOk : Bool

/-- Result of one step: the error raised (if any), the state as mutated
so far, and the trace of external calls performed. -/
structure R where
  err : Option Err
  st : State
  tr : List Ev
deriving DecidableEq

def R.ok (st : State) (tr : List Ev) : R := ⟨none, st, tr⟩

def R.fail (e : Err) (st : State) (tr : List Ev) : R := ⟨some e, st, tr⟩

/-- Sequence two steps: an exception in the first propagates, skipping the
second; otherwise the second continues from the mutated state and the
traces concatenate. -/
def R.andThen (r : R) (k : State → R) : R :=
  match r.err with
  | some _ => r
  | none =>
    let r2 := k r.st
    ⟨r2.err, r2.st, r.tr ++ r2.tr⟩

/-- configure_ssh_key: create a keypair locally, record its generated name,
upload the public half to the provider and set the uploaded flag. -/
def configure_ssh_key (env : Env) (st : State) : R :=
  let st1 := { st with ssh_key_name := some ("one_click_kag_server_" ++ env.freshKeyName) }
  R.ok { st1 with ssh_key_uploaded := true } [.createKeypair, .uploadKey]

/-- create_droplet: raises if no ssh key is configured yet, otherwise
issues the provider creation call and stores the droplet handle. -/
def create_droplet (env : Env) (st : State) : R :=
  match st.ssh_key_name with
  | none => R.fail (.runtimeError "No ssh key configured yet") st []
  | some _ => R.ok { st with droplet := some env.createdDroplet } [.createDroplet]

/-- wait_for_droplet_to_be_active: under the tenacity decorator, each
attempt reloads the droplet, checks its status and runs a trivial remote
echo command; interval 5, deadline 120.  Times out with an error if the
deadline elapses. -/
def wait_for_droplet_to_be_active (env : Env) (st : State) : R :=
  match waitUntil env.activeAt 5 120 with
  | .success _ => R.ok st [.waitActive]
  | .timeout _ => R.fail .timeoutError st [.waitActive]

/-- open_ssh_connection: building the key path raises a TypeError when
ssh_key_name is None, and connecting dereferences droplet.ip_address,
raising when the droplet handle is None. -/
def open_ssh_connection (st : State) : R :=
  match st.ssh_key_name, st.droplet with
  | some _, some _ => R.ok st [.sshConnect]
  | none, _ => R.fail (.typeError "unsupported operand type for path join: NoneType") st []
  | some _, none => R.fail (.typeError "NoneType object has no attribute ip_address") st []

/-- setup_droplet: refuses to run unless the droplet handle is present and
its status is active; opens the sftp channel, uploads the three fixed
setup artifacts and runs the setup script - any of these transfer or
command calls may itself raise, in which case the function exits with the
session still open, since no finally clause guards it (the failure is
summarized by dropletUploadsOk, with the raising transfer as the last
trace event); otherwise it closes the sftp and ssh sessions, then raises
if the script exited non-zero, and only on success sets
done_droplet_setup. -/
def setup_droplet (env : Env) (st : State) : R :=
  match st.droplet with
  | none => R.fail (.runtimeError "Droplet is not active yet") st []
  | some d =>
    if d.status ≠ "active" then R.fail (.runtimeError "Droplet is not active yet") st []
    else
      (open_ssh_connection st).andThen fun st2 =>
        if env.dropletUploadsOk then
          let tr := [Ev.sftpPut, Ev.sftpPut, Ev.sftpPut, Ev.runSetupScript, Ev.sshClose]
          if env.setupScriptStatus ≠ 0 then
            R.fail (.runtimeError "Droplet setup failed") st2 tr
          else R.ok { st2 with done_droplet_setup := true } tr
        else R.fail (.transferError "sftp put failed") st2 [Ev.sftpPut]

/-- setup_kag: connect, upload the compose file, the mods and cache
directories and the generated config and security files - any transfer
may itself raise, exiting with the session still open (summarized by
kagUploadsOk, with the raising transfer as the last trace event) - then
run compose down (exit status ignored) and compose up; raises before
closing the session if compose up exited non-zero, otherwise closes the
session and sets done_kag_setup. -/
def setup_kag (env : Env) (st : State) : R :=
  (open_ssh_connection st).andThen fun st2 =>
    if env.kagUploadsOk then
      let tr := [Ev.sftpPut, Ev.sftpPut, Ev.sftpPut, Ev.sftpPut, Ev.sftpPut, Ev.sftpPut,
        Ev.composeDown, Ev.composeUp]
      if env.composeUpStatus ≠ 0 then R.fail (.runtimeError "Failed to setup KAG") st2 tr
      else R.ok { st2 with done_kag_setup := true } (tr ++ [Ev.sshClose])
    else R.fail (.transferError "sftp put failed") st2 [Ev.sftpPut]

/-- follow_kag_logs: connect and stream the container logs; the session is
never closed. -/
def follow_kag_logs (st : State) : R :=
  (open_ssh_connection st).andThen fun st2 => R.ok st2 [.execLogs]

/-- run_command_up: the bringUp workflow.  Credential configuration is
skipped when ssh_key_uploaded is set; droplet creation and the activation
wait are skipped when a droplet handle exists; the handle is then
reloaded; droplet setup is skipped when done_droplet_setup; KAG setup is
skipped when done_kag_setup. -/
def run_command_up (env : Env) (st : State) : R :=
  (if st.ssh_key_uploaded then R.ok st [] else configure_ssh_key env st).andThen fun st1 =>
    (match st1.droplet with
      | some _ => R.ok st1 []
      | none => (create_droplet env st1).andThen fun st2 =>
          wait_for_droplet_to_be_active env st2).andThen fun st2 =>
      (match st2.droplet with
        | none => R.fail (.typeError "NoneType object has no attribute load") st2 []
        | some d =>
          R.ok { st2 with droplet := some { d with status := env.loadedStatus } }
            [.dropletLoad]).andThen fun st3 =>
        (if st3.done_droplet_setup then R.ok st3 [] else setup_droplet env st3).andThen fun st4 =>
          if st4.done_kag_setup then R.ok st4 [] else setup_kag env st4

/-- run_command_down: connect, recursively download the Cache directory,
then destroy the droplet. -/
def run_command_down (env : Env) (st : State) : R :=
  (open_ssh_connection st).andThen fun st1 =>
    (if env.cacheDownloadOk then R.ok st1 [.getRecursiveCache]
      else R.fail (.runtimeError "transfer failed") st1 [.getRecursiveCache]).andThen fun st2 =>
      R.ok st2 [.destroyDroplet]

/-- run_command_rcon: validates the two autoconfig toggles, then builds
the web console config from the droplet address and runs the console. -/
def run_command_rcon (cfg : Config) (st : State) : R :=
  if cfg.sv_tcpr ≠ some 1 then
    R.fail (.runtimeError "sv_tcpr is not set in autoconfig") st []
  else if falsyStr cfg.sv_rconpassword then
    R.fail (.runtimeError "sv_rconpassword is not set in autoconfig") st []
  else
    match st.droplet with
    | none => R.fail (.typeError "NoneType object has no attribute ip_address") st []
    | some _ => R.ok st []

/-- exec_ssh: spawn a local interactive ssh process; check_call raises on
a non-zero exit. -/
def exec_ssh (env : Env) (st : State) : R :=
  if env.sshExecOk then R.ok st [] else R.fail (.runtimeError "ssh exited non-zero") st []

inductive Cmd where
  | up
  | down
  | restartKag
  | kagLogs
  | shell
  | rcon
deriving DecidableEq

/-- The command dispatch inside the try block of main; the down command
replaces the state with a fresh record after a successful teardown. -/
def dispatch (env : Env) (cfg : Config) (cmd : Cmd) (st : State) : R :=
  match cmd with
  | .up => run_command_up env st
  | .down => (run_command_down env st).andThen fun _ => R.ok State.init []
  | .restartKag => setup_kag env st
  | .kagLogs => follow_kag_logs st
  | .shell => exec_ssh env st
  | .rcon => run_command_rcon cfg st

/-- main: load the state, reset done_kag_setup, check the config (a
failure here propagates before the try block, so nothing is saved), then
dispatch the command inside try/finally: the finally clause saves the
current state whether or not the command raised.  The second component is
the state written to the state file, if any. -/
def mainRun (env : Env) (cfg : Config) (fsModDirs : List String) (cmd : Cmd)
    (loaded : State) : R × Option State :=
  let st := { loaded with done_kag_setup := false }
  match check_config fsModDirs cfg with
  | .error e => (R.fail e st [], none)
  | .ok _ =>
    let r := dispatch env cfg cmd st
    (⟨r.err, r.st, r.tr ++ [Ev.saveState]⟩, some r.st)

/-! ## Concrete fixtures used by the witnesses -/

/-- A concrete environment in which every remote operation succeeds. -/
def envAll0 : Env :=
  { freshKeyName := "ab12cd34"
    createdDroplet := { status := "new", ip_address := "203.0.113.7" }
    loadedStatus := "active"
    activeAt := fun _ => true
    dropletUploadsOk := true
    setupScriptStatus := 0
    kagUploadsOk := true
    composeUpStatus := 0
    cacheDownloadOk := true
    sshExecOk := true }

/-- The persisted state left behind by a fully completed earlier run
(done_kag_setup already reset to false, as main always does on load). -/
def stResumed : State :=
  { ssh_key_name := some "one_click_kag_server_ab12cd34"
    ssh_key_uploaded := true
    droplet := some { status := "active", ip_address := "203.0.113.7" }
    done_droplet_setup := true
    done_kag_setup := false }

/-- The environment in which docker-compose up exits non-zero. -/
def envComposeFail : Env := { envAll0 with composeUpStatus := 1 }

/-- The environment in which a transfer raises during each setup phase. -/
def envUploadFail : Env := { envAll0 with dropletUploadsOk := false, kagUploadsOk := false }

/-- The environment in which both the droplet setup script and
docker-compose up exit non-zero. -/
def envScriptFail : Env := { envAll0 with setupScriptStatus := 1, composeUpStatus := 1 }

/-- A valid configuration whose single mod is present locally. -/
def cfgW : Config :=
  { secrets_digitalocean_key := some "do_token"
    kag_mods := some ["TestMod"]
    sv_tcpr := some 1
    sv_rconpassword := some "hunter2" }

/-- cfgW with the kag.mods key absent. -/
def cfgNoMods : Config := { cfgW with kag_mods := none }

/-- A small local tree: a file, a mods directory with one file, and an
empty cache directory. -/
def treeW : Tree :=
  Tree.dirNode "Mods" (Tree.fileNode "mod.cfg" "gamemode" Tree.nil)
    (Tree.fileNode "docker-compose.yaml" "services"
      (Tree.dirNode "Cache" Tree.nil Tree.nil))

/-! ## Helper lemmas: the retry loop -/

theorem retryGo_alwaysFalse (pred : Nat → Bool) (hp : ∀ n, pred n = false) :
    ∀ (fuel a e : Nat), 120 < e + 5 * fuel →
      retryGo pred 5 120 fuel a e = .timeout (a + (124 - e) / 5) := by
  intro fuel
  induction fuel with
  | zero =>
    intro a e he
    have h0 : (124 - e) / 5 = 0 := Nat.div_eq_of_lt (by omega)
    simp [retryGo, h0]
  | succ f ih =>
    intro a e he
    simp only [retryGo, hp, Bool.false_eq_true, if_false]
    by_cases hstop : 120 ≤ e
    · have : (124 - e) / 5 = 0 := Nat.div_eq_of_lt (by omega)
      simp [hstop, this]
    · have hlt : e < 120 := by omega
      rw [if_neg hstop]
      rw [ih (a+1) (e+5) (by omega)]
      congr 1
      have h1 : 124 - (e + 5) = 119 - e := by omega
      have h2 : 124 - e = (119 - e) + 5 := by omega
      rw [h1, h2, Nat.add_div_right _ (by omega)]
      omega

/-! ## Helper lemmas: directory trees -/

theorem Tree.append_nil : ∀ (t : Tree), t.append .nil = t
  | .nil => rfl
  | .fileNode n c r => by simp [Tree.append, Tree.append_nil r]
  | .dirNode n ch r => by simp [Tree.append, Tree.append_nil r]

theorem Tree.append_assoc : ∀ (a b c : Tree), (a.append b).append c = a.append (b.append c)
  | .nil, _, _ => rfl
  | .fileNode n cn r, b, c => by simp [Tree.append, Tree.append_assoc r b c]
  | .dirNode n ch r, b, c => by simp [Tree.append, Tree.append_assoc r b c]

theorem Tree.insertT_absent :
    ∀ (t : Tree) (n : String) (v : EntView), t.lookup n = none →
      t.insertT n v = t.append (Tree.nil.insertT n v)
  | .nil, n, v, _ => rfl
  | .fileNode m c r, n, v, h => by
    by_cases hmn : m = n
    · simp [Tree.lookup, hmn] at h
    · simp only [Tree.lookup, hmn, if_false] at h
      simp [Tree.insertT, hmn, Tree.append, Tree.insertT_absent r n v h]
  | .dirNode m ch r, n, v, h => by
    by_cases hmn : m = n
    · simp [Tree.lookup, hmn] at h
    · simp only [Tree.lookup, hmn, if_false] at h
      simp [Tree.insertT, hmn, Tree.append, Tree.insertT_absent r n v h]

theorem Tree.lookup_append_left_none :
    ∀ (a b : Tree) (n : String), a.lookup n = none →
      (a.append b).lookup n = b.lookup n
  | .nil, _, _, _ => rfl
  | .fileNode m c r, b, n, h => by
    by_cases hmn : m = n
    · simp [Tree.lookup, hmn] at h
    · simp only [Tree.lookup, hmn, if_false] at h
      simp [Tree.append, Tree.lookup, hmn, Tree.lookup_append_left_none r b n h]
  | .dirNode m ch r, b, n, h => by
    by_cases hmn : m = n
    · simp [Tree.lookup, hmn] at h
    · simp only [Tree.lookup, hmn, if_false] at h
      simp [Tree.append, Tree.lookup, hmn, Tree.lookup_append_left_none r b n h]

theorem Tree.lookup_single_ne (m n : String) (v : EntView) (h : m ≠ n) :
    (Tree.nil.insertT m v).lookup n = none := by
  cases v <;> simp [Tree.insertT, Tree.lookup, h]

theorem Tree.single_append (n : String) (c : String) (r : Tree) :
    (Tree.nil.insertT n (.fileV c)).append r = Tree.fileNode n c r := by
  simp [Tree.insertT, Tree.append]

theorem Tree.single_append_dir (n : String) (ch : Tree) (r : Tree) :
    (Tree.nil.insertT n (.dirV ch)).append r = Tree.dirNode n ch r := by
  simp [Tree.insertT, Tree.append]

/-- Uploading a listing whose names are disjoint from the current remote
target contents appends the listing to the target, unchanged. -/
theorem put_dir_disjoint :
    ∀ (t acc : Tree), t.nodupB = true →
      (∀ n, n ∈ t.names → acc.lookup n = none) →
      put_dir t acc = .ok (acc.append t)
  | .nil, acc, _, _ => by simp [put_dir, Tree.append_nil]
  | .fileNode n c rest, acc, hnd, hdisj => by
    have hacc : acc.lookup n = none := hdisj n (by simp [Tree.names])
    simp only [Tree.nodupB, Bool.and_eq_true, Bool.not_eq_true',
      decide_eq_false_iff_not] at hnd
    have ih := put_dir_disjoint rest (acc.append (Tree.nil.insertT n (.fileV c)))
      hnd.2 (by
        intro m hm
        rw [Tree.lookup_append_left_none _ _ _ (hdisj m (by simp [Tree.names, hm]))]
        exact Tree.lookup_single_ne n m _ (fun h => hnd.1 (h ▸ hm)))
    simp only [put_dir, hacc]
    rw [Tree.insertT_absent acc n _ hacc, ih, Tree.append_assoc, Tree.single_append]
  | .dirNode n ch rest, acc, hnd, hdisj => by
    have hacc : acc.lookup n = none := hdisj n (by simp [Tree.names])
    simp only [Tree.nodupB, Bool.and_eq_true, Bool.not_eq_true',
      decide_eq_false_iff_not] at hnd
    have ihch := put_dir_disjoint ch Tree.nil hnd.1.2 (by intro m _; rfl)
    have ih := put_dir_disjoint rest (acc.append (Tree.nil.insertT n (.dirV ch)))
      hnd.2 (by
        intro m hm
        rw [Tree.lookup_append_left_none _ _ _ (hdisj m (by simp [Tree.names, hm]))]
        exact Tree.lookup_single_ne n m _ (fun h => hnd.1.1 (h ▸ hm)))
    simp only [put_dir, hacc]
    rw [ihch]
    simp only [Tree.append] at ihch ⊢
    rw [Tree.insertT_absent acc n _ hacc, ih, Tree.append_assoc, Tree.single_append_dir]

/-- Downloading a remote listing whose names are disjoint from the current
local destination contents appends the listing to the destination,
unchanged. -/
theorem get_recursive_disjoint :
    ∀ (t acc : Tree), t.nodupB = true →
      (∀ n, n ∈ t.names → acc.lookup n = none) →
      get_recursive t acc = .ok (acc.append t)
  | .nil, acc, _, _ => by simp [get_recursive, Tree.append_nil]
  | .fileNode n c rest, acc, hnd, hdisj => by
    have hacc : acc.lookup n = none := hdisj n (by simp [Tree.names])
    simp only [Tree.nodupB, Bool.and_eq_true, Bool.not_eq_true',
      decide_eq_false_iff_not] at hnd
    have ih := get_recursive_disjoint rest (acc.append (Tree.nil.insertT n (.fileV c)))
      hnd.2 (by
        intro m hm
        rw [Tree.lookup_append_left_none _ _ _ (hdisj m (by simp [Tree.names, hm]))]
        exact Tree.lookup_single_ne n m _ (fun h => hnd.1 (h ▸ hm)))
    simp only [get_recursive, hacc]
    rw [Tree.insertT_absent acc n _ hacc, ih, Tree.append_assoc, Tree.single_append]
  | .dirNode n ch rest, acc, hnd, hdisj => by
    have hacc : acc.lookup n = none := hdisj n (by simp [Tree.names])
    simp only [Tree.nodupB, Bool.and_eq_true, Bool.not_eq_true',
      decide_eq_false_iff_not] at hnd
    have ihch := get_recursive_disjoint ch Tree.nil hnd.1.2 (by intro m _; rfl)
    have ih := get_recursive_disjoint rest (acc.append (Tree.nil.insertT n (.dirV ch)))
      hnd.2 (by
        intro m hm
        rw [Tree.lookup_append_left_none _ _ _ (hdisj m (by simp [Tree.names, hm]))]
        exact Tree.lookup_single_ne n m _ (fun h => hnd.1.1 (h ▸ hm)))
    simp only [get_recursive, hacc]
    rw [ihch]
    simp only [Tree.append] at ihch ⊢
    rw [Tree.insertT_absent acc n _ hacc, ih, Tree.append_assoc, Tree.single_append_dir]

theorem put_dir_from_empty (t : Tree) (h : t.nodupB = true) :
    put_dir t Tree.nil = .ok t :=
  put_dir_disjoint t Tree.nil h (fun _ _ => rfl)

theorem get_recursive_from_empty (t : Tree) (h : t.nodupB = true) :
    get_recursive t Tree.nil = .ok t :=
  get_recursive_disjoint t Tree.nil h (fun _ _ => rfl)

/-! ## Helper lemmas: step sequencing and the workflow steps -/

theorem R.mem_andThen_left {e : Ev} {r : R} (k : State → R) (h : e ∈ r.tr) :
    e ∈ (r.andThen k).tr := by
  unfold R.andThen
  rcases herr : r.err with _ | e2 <;> simp [herr, h]

theorem R.mem_andThen_right {e : Ev} {r : R} {k : State → R} (hr : r.err = none)
    (h : e ∈ (k r.st).tr) : e ∈ (r.andThen k).tr := by
  unfold R.andThen
  simp [hr, h]

theorem R.notMem_andThen {e : Ev} {r : R} {k : State → R} (h1 : e ∉ r.tr)
    (h2 : r.err = none → e ∉ (k r.st).tr) : e ∉ (r.andThen k).tr := by
  unfold R.andThen
  rcases herr : r.err with _ | e2
  · simp [herr, h1, h2 herr]
  · simp [herr, h1]

theorem stepKey_err (env : Env) (st : State) :
    (if st.ssh_key_uploaded then R.ok st [] else configure_ssh_key env st).err = none := by
  cases h : st.ssh_key_uploaded <;> simp [h, configure_ssh_key, R.ok]

theorem stepKey_droplet (env : Env) (st : State) :
    ((if st.ssh_key_uploaded then R.ok st [] else configure_ssh_key env st).st).droplet
      = st.droplet := by
  cases h : st.ssh_key_uploaded <;> simp [h, configure_ssh_key, R.ok]

theorem stepKey_keyname (env : Env) (st : State)
    (hk : st.ssh_key_uploaded = true → st.ssh_key_name.isSome) :
    ((if st.ssh_key_uploaded then R.ok st []
      else configure_ssh_key env st).st).ssh_key_name.isSome := by
  cases h : st.ssh_key_uploaded <;> simp [h, configure_ssh_key, R.ok, hk]

theorem stepKey_tr (env : Env) (st : State) :
    ∀ e ∈ (if st.ssh_key_uploaded then R.ok st [] else configure_ssh_key env st).tr,
      e = Ev.createKeypair ∨ e = Ev.uploadKey := by
  cases h : st.ssh_key_uploaded <;> simp [h, configure_ssh_key, R.ok]

theorem setup_droplet_tr (env : Env) (st : State) :
    ∀ e ∈ (setup_droplet env st).tr,
      e = Ev.sshConnect ∨ e = Ev.sftpPut ∨ e = Ev.runSetupScript ∨ e = Ev.sshClose := by
  unfold setup_droplet open_ssh_connection
  rcases st.droplet with _ | d
  · simp [R.fail]
  · by_cases hs : d.status = "active"
    · rcases hkn : st.ssh_key_name with _ | k <;>
        cases hup : env.dropletUploadsOk <;>
        by_cases hss : env.setupScriptStatus ≠ 0 <;>
        simp [hs, hkn, hup, hss, R.andThen, R.ok, R.fail]
    · simp [hs, R.fail]

theorem setup_kag_tr (env : Env) (st : State) :
    ∀ e ∈ (setup_kag env st).tr,
      e = Ev.sshConnect ∨ e = Ev.sftpPut ∨ e = Ev.composeDown ∨ e = Ev.composeUp ∨
        e = Ev.sshClose := by
  unfold setup_kag open_ssh_connection
  rcases hkn : st.ssh_key_name with _ | k <;> rcases hdr : st.droplet with _ | d <;>
    cases hup : env.kagUploadsOk <;> by_cases hc : env.composeUpStatus ≠ 0 <;>
    simp [hkn, hdr, hup, hc, R.andThen, R.ok, R.fail]

theorem waitActive_notin_stepD (env : Env) (s : State) :
    Ev.waitActive ∉ (if s.done_droplet_setup then R.ok s [] else setup_droplet env s).tr := by
  cases h : s.done_droplet_setup <;> simp only [h, Bool.false_eq_true, if_false, if_true]
  · intro he
    exact absurd (setup_droplet_tr env s _ he) (by simp)
  · simp [R.ok]

theorem waitActive_notin_stepE (env : Env) (s : State) :
    Ev.waitActive ∉ (if s.done_kag_setup then R.ok s [] else setup_kag env s).tr := by
  cases h : s.done_kag_setup <;> simp only [h, Bool.false_eq_true, if_false, if_true]
  · intro he
    exact absurd (setup_kag_tr env s _ he) (by simp)
  · simp [R.ok]

theorem setup_droplet_fail (env : Env) (st : State) (h1 : env.setupScriptStatus ≠ 0) :
    (setup_droplet env st).err.isSome ∧ (setup_droplet env st).st = st := by
  unfold setup_droplet open_ssh_connection R.andThen
  rcases hdr : st.droplet with _ | d
  · simp [R.fail]
  · by_cases hs : d.status = "active"
    · rcases hkn : st.ssh_key_name with _ | k <;> cases hup : env.dropletUploadsOk <;>
        simp [hs, hkn, hup, R.ok, R.fail, h1]
    · simp [hs, R.fail]

theorem setup_kag_fail (env : Env) (st : State) (h2 : env.composeUpStatus ≠ 0) :
    (setup_kag env st).err.isSome ∧ (setup_kag env st).st = st := by
  unfold setup_kag open_ssh_connection R.andThen
  rcases hkn : st.ssh_key_name with _ | k <;> rcases hdr : st.droplet with _ | d <;>
    cases hup : env.kagUploadsOk <;> simp [hkn, hdr, hup, R.ok, R.fail, h2]

/-! ## The claims -/

/-- C1: in a state where all step flags are set (credential uploaded,
instance handle present, host setup done), a second invocation of bringUp
(run_command_up) performs zero credential-creation, credential-upload and
instance-creation calls: steps (a)-(d) are gated on the persisted state. -/
theorem claim_C1_second_bringUp_no_creation (env : Env) (st : State) (d : Droplet)
    (h1 : st.ssh_key_uploaded = true) (h2 : st.droplet = some d)
    (h3 : st.done_droplet_setup = true) :
    Ev.createKeypair ∉ (run_command_up env st).tr ∧
    Ev.uploadKey ∉ (run_command_up env st).tr ∧
    Ev.createDroplet ∉ (run_command_up env st).tr := by
  obtain ⟨kn, ku, dr, dds, dks⟩ := st
  dsimp only at h1 h2 h3
  subst h1; subst h2; subst h3
  cases dks <;> cases kn <;> cases hup : env.kagUploadsOk <;>
    by_cases hc : env.composeUpStatus ≠ 0 <;>
    simp [run_command_up, R.andThen, R.ok, R.fail, setup_kag, open_ssh_connection, hup, hc]

theorem claim_C1_witness :
    stResumed.ssh_key_uploaded = true ∧
    stResumed.droplet = some { status := "active", ip_address := "203.0.113.7" } ∧
    stResumed.done_droplet_setup = true ∧
    (Ev.createKeypair ∉ (run_command_up envAll0 stResumed).tr ∧
      Ev.uploadKey ∉ (run_command_up envAll0 stResumed).tr ∧
      Ev.createDroplet ∉ (run_command_up envAll0 stResumed).tr) :=
  ⟨rfl, rfl, rfl,
    claim_C1_second_bringUp_no_creation envAll0 stResumed _ rfl rfl rfl⟩

/-- C2 counterexample: in a resumed state whose instance handle is already
set, bringUp succeeds without ever executing the activation-verification
step (the polling loop with its trivial remote command), refuting the
claim that the verification is executed on every invocation. -/
theorem claim_C2_counterexample :
    (run_command_up envAll0 stResumed).err = none ∧
    Ev.waitActive ∉ (run_command_up envAll0 stResumed).tr := by
  exact ⟨by decide, by decide⟩

/-- C2 amended: bringUp executes the activation-verification step (status
polling plus trivial remote command, under the retry policy) exactly when
the instance handle is absent, that is only for a freshly created
instance; when the handle was set by a previous run the step is skipped
and only a single handle reload is performed.  The side condition says the
state is consistent: an uploaded credential has a recorded key name. -/
theorem claim_C2_amended (env : Env) (st : State)
    (hk : st.ssh_key_uploaded = true → st.ssh_key_name.isSome) :
    Ev.waitActive ∈ (run_command_up env st).tr ↔ st.droplet = none := by
  unfold run_command_up
  have hAerr := stepKey_err env st
  have hAdr := stepKey_droplet env st
  constructor
  · intro hmem
    rcases hd : st.droplet with _ | d
    · rfl
    exfalso
    rw [hd] at hAdr
    revert hmem
    apply R.notMem_andThen
    · intro he
      rcases stepKey_tr env st _ he with h | h <;> simp at h
    · intro _
      generalize hG : (if st.ssh_key_uploaded = true then R.ok st []
        else configure_ssh_key env st).st = s1 at hAdr
      rw [hAdr]
      apply R.notMem_andThen
      · simp [R.ok]
      · intro _
        simp only [R.ok]
        rw [hAdr]
        apply R.notMem_andThen
        · simp
        · intro _
          apply R.notMem_andThen
          · exact waitActive_notin_stepD env _
          · intro _
            exact waitActive_notin_stepE env _
  · intro hd
    apply R.mem_andThen_right hAerr
    rw [hAdr, hd]
    apply R.mem_andThen_left
    have hkn := stepKey_keyname env st hk
    rcases hkn2 : ((if st.ssh_key_uploaded then R.ok st [] else
        configure_ssh_key env st).st).ssh_key_name with _ | k
    · rw [hkn2] at hkn; simp at hkn
    · unfold create_droplet
      rw [hkn2]
      apply R.mem_andThen_right (by simp [R.ok])
      unfold wait_for_droplet_to_be_active
      rcases waitUntil env.activeAt 5 120 <;> simp [R.ok, R.fail]

theorem claim_C2_witness :
    (stResumed.ssh_key_uploaded = true → stResumed.ssh_key_name.isSome) ∧
    (Ev.waitActive ∈ (run_command_up envAll0 stResumed).tr ↔ stResumed.droplet = none) :=
  ⟨fun _ => by decide, claim_C2_amended envAll0 stResumed (fun _ => by decide)⟩

/-- C3: for every local directory tree with well-formed (per-listing
distinct) names, uploading it into an empty remote directory with put_dir
and then downloading the resulting remote tree into an empty local
directory with get_recursive reproduces the original tree exactly: same
structure, same entry names, same file contents. -/
theorem claim_C3_mirror_round_trip (T : Tree) (h : T.nodupB = true) :
    ∃ Rm, put_dir T Tree.nil = .ok Rm ∧ get_recursive Rm Tree.nil = .ok T :=
  ⟨T, put_dir_from_empty T h, get_recursive_from_empty T h⟩

theorem claim_C3_witness :
    treeW.nodupB = true ∧
    ∃ Rm, put_dir treeW Tree.nil = .ok Rm ∧ get_recursive Rm Tree.nil = .ok treeW :=
  ⟨by decide, claim_C3_mirror_round_trip treeW (by decide)⟩

/-- C4: whenever the command dispatch is reached (the configuration check
passed), main persists the current in-memory state record - including
every flag set by steps completed before a failure - as its final action,
whether the command succeeded or raised. -/
theorem claim_C4_state_saved_on_all_paths (env : Env) (cfg : Config)
    (fs : List String) (cmd : Cmd) (loaded : State)
    (hc : check_config fs cfg = .ok ()) :
    (mainRun env cfg fs cmd loaded).2 = some (mainRun env cfg fs cmd loaded).1.st ∧
    (mainRun env cfg fs cmd loaded).1.tr.getLast? = some Ev.saveState := by
  unfold mainRun
  rw [hc]
  exact ⟨rfl, by simp⟩

theorem claim_C4_witness :
    check_config ["TestMod"] cfgW = Except.ok () ∧
    ((mainRun envScriptFail cfgW ["TestMod"] Cmd.up State.init).2 =
        some (mainRun envScriptFail cfgW ["TestMod"] Cmd.up State.init).1.st ∧
      (mainRun envScriptFail cfgW ["TestMod"] Cmd.up State.init).1.tr.getLast? =
        some Ev.saveState) :=
  ⟨rfl,
    claim_C4_state_saved_on_all_paths envScriptFail cfgW ["TestMod"] Cmd.up State.init
      rfl⟩

/-- C5 counterexample: with interval 5 and deadline 120, an always-failing
predicate is attempted 25 times, not the claimed ceiling 120 / 5 = 24:
tenacity checks the stop condition only after an attempt, so the attempt
starting right when the deadline expires still runs. -/
theorem claim_C5_counterexample :
    waitUntil (fun _ => false) 5 120 = .timeout 25 ∧ ¬ (25 ≤ (120 + 5 - 1) / 5) := by
  exact ⟨by decide, by decide⟩

/-- C5 amended: for every predicate that always fails, waitUntil with
interval 5 and deadline 120 makes exactly 120 / 5 + 1 = 25 attempts and
then terminates with a timeout failure; it never retries indefinitely. -/
theorem claim_C5_amended (pred : Nat → Bool) (hp : ∀ n, pred n = false) :
    waitUntil pred 5 120 = .timeout (120 / 5 + 1) := by
  have h := retryGo_alwaysFalse pred hp 121 1 0 (by omega)
  unfold waitUntil
  rw [h]

theorem claim_C5_witness :
    (∀ n, (fun _ => false : Nat → Bool) n = false) ∧
    waitUntil (fun _ => false) 5 120 = .timeout (120 / 5 + 1) :=
  ⟨fun _ => rfl, claim_C5_amended (fun _ => false) (fun _ => rfl)⟩

/-- C6: when the droplet setup script or the compose restart command exits
non-zero, the corresponding operation raises and leaves the state record
entirely unchanged: the completion flag is not set and the flags of
previously completed steps keep their values. -/
theorem claim_C6_failed_setup_leaves_state_unchanged (env : Env) (st : State)
    (h1 : env.setupScriptStatus ≠ 0) (h2 : env.composeUpStatus ≠ 0) :
    ((setup_droplet env st).err.isSome ∧ (setup_droplet env st).st = st) ∧
    ((setup_kag env st).err.isSome ∧ (setup_kag env st).st = st) :=
  ⟨setup_droplet_fail env st h1, setup_kag_fail env st h2⟩

theorem claim_C6_witness :
    envScriptFail.setupScriptStatus ≠ 0 ∧ envScriptFail.composeUpStatus ≠ 0 ∧
    (((setup_droplet envScriptFail stResumed).err.isSome ∧
        (setup_droplet envScriptFail stResumed).st = stResumed) ∧
      ((setup_kag envScriptFail stResumed).err.isSome ∧
        (setup_kag envScriptFail stResumed).st = stResumed)) :=
  ⟨by decide, by decide,
    claim_C6_failed_setup_leaves_state_unchanged envScriptFail stResumed
      (by decide) (by decide)⟩

/-- C7 counterexample: MySFTPClient.mkdir with ignore_existing set
swallows a permission-denied IOError exactly as it swallows an
already-exists IOError, silently succeeding instead of propagating a
failure other than already-exists as the claim requires. -/
theorem claim_C7_counterexample :
    MySFTPClient.mkdir (.error (.ioError .permissionDenied)) true = .ok () ∧
    IOReason.permissionDenied ≠ IOReason.alreadyExists := by
  exact ⟨rfl, by decide⟩

/-- C7 amended: with ignore_existing set, the mkdir wrapper succeeds
silently on ANY IOError from the underlying mkdir - already-exists or
otherwise - and propagates only non-IOError failures; in particular two
consecutive calls on the same path never fail on the second call. -/
theorem claim_C7_amended (fs : List String) (p : String) (r : IOReason) :
    (MySFTPClient.mkdirOn fs p true).1 = .ok () ∧
    (MySFTPClient.mkdirOn (MySFTPClient.mkdirOn fs p true).2 p true).1 = .ok () ∧
    MySFTPClient.mkdir (.error (.ioError r)) true = .ok () ∧
    MySFTPClient.mkdir (.error .sshException) true = .error .sshException := by
  refine ⟨?_, ?_, ?_, ?_⟩
  · unfold MySFTPClient.mkdirOn sftpBaseMkdir MySFTPClient.mkdir
    by_cases h : p ∈ fs <;> simp [h]
  · unfold MySFTPClient.mkdirOn sftpBaseMkdir MySFTPClient.mkdir
    by_cases h : p ∈ fs <;> simp [h]
  · cases r <;> rfl
  · rfl

theorem claim_C7_witness :
    (MySFTPClient.mkdirOn ["Mods"] "Mods" true).1 = .ok () ∧
    (MySFTPClient.mkdirOn (MySFTPClient.mkdirOn ["Mods"] "Mods" true).2 "Mods" true).1
      = .ok () ∧
    MySFTPClient.mkdir (.error (.ioError .permissionDenied)) true = .ok () ∧
    MySFTPClient.mkdir (.error .sshException) true = .error .sshException :=
  claim_C7_amended ["Mods"] "Mods" .permissionDenied

/-- C8: in every execution of tearDown (run_command_down), whenever the
instance-destruction call appears in the trace, the recursive cache
download appears strictly before it; destruction is never issued first. -/
theorem claim_C8_download_before_destroy (env : Env) (st : State)
    (h : Ev.destroyDroplet ∈ (run_command_down env st).tr) :
    ∃ i j, i < j ∧
      (run_command_down env st).tr.get? i = some Ev.getRecursiveCache ∧
      (run_command_down env st).tr.get? j = some Ev.destroyDroplet := by
  unfold run_command_down open_ssh_connection R.andThen at h ⊢
  rcases hkn : st.ssh_key_name with _ | k <;> rcases hdr : st.droplet with _ | d <;>
    by_cases hc : env.cacheDownloadOk <;>
    simp [hkn, hdr, hc, R.ok, R.fail] at h ⊢
  all_goals exact ⟨1, 2, by omega, rfl, rfl⟩

theorem claim_C8_witness :
    Ev.destroyDroplet ∈ (run_command_down envAll0 stResumed).tr ∧
    ∃ i j, i < j ∧
      (run_command_down envAll0 stResumed).tr.get? i = some Ev.getRecursiveCache ∧
      (run_command_down envAll0 stResumed).tr.get? j = some Ev.destroyDroplet :=
  ⟨by decide, claim_C8_download_before_destroy envAll0 stResumed (by decide)⟩

/-- C9 counterexample: setup_kag with a failing restart command raises
while leaving the ssh session it opened undisconnected - the close call
sits after the raise - refuting the claim that every operation opening a
remote session disconnects it on every exit path. -/
theorem claim_C9_counterexample :
    (setup_kag envComposeFail stResumed).err.isSome = true ∧
    Ev.sshConnect ∈ (setup_kag envComposeFail stResumed).tr ∧
    Ev.sshClose ∉ (setup_kag envComposeFail stResumed).tr := by
  exact ⟨by decide, by decide, by decide⟩

/-- C9 amended: no session-opening operation guarantees disconnection on
every exit path.  setup_droplet closes the session on its success path
and on the non-zero-exit-status path (its close precedes the status
check), but a transfer or remote command that itself raises exits with
the session still open; setup_kag closes only on its success path,
leaving the session open both when a transfer raises and when the
restart command exits non-zero; follow_kag_logs never closes its
session on any path. -/
theorem claim_C9_amended (env : Env) (st : State) :
    (env.dropletUploadsOk = true → Ev.sshConnect ∈ (setup_droplet env st).tr →
      Ev.sshClose ∈ (setup_droplet env st).tr) ∧
    (env.dropletUploadsOk = false → Ev.sshClose ∉ (setup_droplet env st).tr) ∧
    ((setup_kag env st).err = none → Ev.sshClose ∈ (setup_kag env st).tr) ∧
    (env.kagUploadsOk = false → Ev.sshClose ∉ (setup_kag env st).tr) ∧
    (env.composeUpStatus ≠ 0 → Ev.sshClose ∉ (setup_kag env st).tr) ∧
    Ev.sshClose ∉ (follow_kag_logs st).tr := by
  refine ⟨?_, ?_, ?_, ?_, ?_, ?_⟩
  · intro hup
    unfold setup_droplet open_ssh_connection R.andThen
    rcases hdr : st.droplet with _ | d
    · simp [R.fail]
    · by_cases hs : d.status = "active"
      · rcases hkn : st.ssh_key_name with _ | k <;>
          by_cases hss : env.setupScriptStatus ≠ 0 <;> simp [hs, hkn, hup, hss, R.ok, R.fail]
      · simp [hs, R.fail]
  · intro hup
    unfold setup_droplet open_ssh_connection R.andThen
    rcases hdr : st.droplet with _ | d
    · simp [R.fail]
    · by_cases hs : d.status = "active"
      · rcases hkn : st.ssh_key_name with _ | k <;> simp [hs, hkn, hup, R.ok, R.fail]
      · simp [hs, R.fail]
  · unfold setup_kag open_ssh_connection R.andThen
    rcases hkn : st.ssh_key_name with _ | k <;> rcases hdr : st.droplet with _ | d <;>
      cases hup : env.kagUploadsOk <;> by_cases hcc : env.composeUpStatus ≠ 0 <;>
      simp [hkn, hdr, hup, hcc, R.ok, R.fail]
  · intro hup
    unfold setup_kag open_ssh_connection R.andThen
    rcases hkn : st.ssh_key_name with _ | k <;> rcases hdr : st.droplet with _ | d <;>
      simp [hkn, hdr, hup, R.ok, R.fail]
  · intro hcc
    unfold setup_kag open_ssh_connection R.andThen
    rcases hkn : st.ssh_key_name with _ | k <;> rcases hdr : st.droplet with _ | d <;>
      cases hup : env.kagUploadsOk <;> simp [hkn, hdr, hup, hcc, R.ok, R.fail]
  · unfold follow_kag_logs open_ssh_connection R.andThen
    rcases hkn : st.ssh_key_name with _ | k <;> rcases hdr : st.droplet with _ | d <;>
      simp [hkn, hdr, R.ok, R.fail]

theorem claim_C9_witness :
    Ev.sshClose ∈ (setup_droplet envScriptFail stResumed).tr ∧
    Ev.sshClose ∉ (setup_droplet envUploadFail stResumed).tr ∧
    Ev.sshClose ∈ (setup_kag envAll0 stResumed).tr ∧
    Ev.sshClose ∉ (setup_kag envUploadFail stResumed).tr ∧
    Ev.sshClose ∉ (setup_kag envComposeFail stResumed).tr ∧
    Ev.sshClose ∉ (follow_kag_logs stResumed).tr :=
  ⟨(claim_C9_amended envScriptFail stResumed).1 (by decide) (by decide),
    (claim_C9_amended envUploadFail stResumed).2.1 (by decide),
    (claim_C9_amended envAll0 stResumed).2.2.1 (by decide),
    (claim_C9_amended envUploadFail stResumed).2.2.2.1 (by decide),
    (claim_C9_amended envComposeFail stResumed).2.2.2.2.1 (by decide),
    (claim_C9_amended envAll0 stResumed).2.2.2.2.2⟩

/-- C10: a configuration whose enabled-mods sequence is absent is rejected
by the configuration check with an error (iterating the absent sequence
raises a TypeError) even when the provider credential is present, before
any remote action. -/
theorem claim_C10_missing_mods_rejected (fs : List String) (cfg : Config)
    (h1 : cfg.kag_mods = none) (h2 : falsyStr cfg.secrets_digitalocean_key = false) :
    check_config fs cfg = .error (.typeError "NoneType object is not iterable") := by
  unfold check_config
  rw [h2, h1]
  simp

theorem claim_C10_witness :
    cfgNoMods.kag_mods = none ∧
    falsyStr cfgNoMods.secrets_digitalocean_key = false ∧
    check_config ["TestMod"] cfgNoMods =
      .error (.typeError "NoneType object is not iterable") :=
  ⟨rfl, rfl, claim_C10_missing_mods_rejected ["TestMod"] cfgNoMods rfl rfl⟩

end OneClickKag
